import Mathlib

set_option maxRecDepth 100000

/-!
Verification of the sample multiline log generator (`examples/multiline_demo.py`).

The script defines one function, `generate_sample_logs`, which captures a
wall-clock value (`now = datetime.datetime.now()`) that it never uses, builds
three literal multiline strings (`java_logs`, `python_logs`, `config_logs`),
and returns them.  The `__main__` entry point prints the three blocks to
standard output, each preceded by a header line, with a blank line before the
second and third headers (the `"\n=== ..."` prefixes), and exits normally.

The embedding below models the wall-clock read as an explicit `Nat` parameter,
`print` as appending the argument plus a newline to an output accumulator, and
the three blocks as the literal strings from the source.  Line-level claims
are decided by splitting the strings on the newline character.
-/

/-- The `java_logs` literal from `generate_sample_logs` (an f-string with no
placeholders, hence a fixed literal). -/
def java_logs : String :=
  "2024-01-15 10:00:00 INFO  Starting UserService\n" ++
  "2024-01-15 10:00:01 ERROR Exception in user registration\n" ++
  "java.lang.RuntimeException: Database connection failed\n" ++
  "    at com.example.UserService.registerUser(UserService.java:42)\n" ++
  "    at com.example.UserController.signup(UserController.java:23)\n" ++
  "    at java.base/java.lang.Thread.run(Thread.java:829)\n" ++
  "Caused by: java.sql.SQLException: Connection timeout\n" ++
  "    at com.mysql.jdbc.Driver.connect(Driver.java:115)\n" ++
  "    ... 3 more\n" ++
  "2024-01-15 10:00:02 INFO  Retrying user registration\n" ++
  "2024-01-15 10:00:03 INFO  User registration successful"

/-- The `python_logs` literal from `generate_sample_logs`. -/
def python_logs : String :=
  "[2024-01-15 10:05:00] INFO: Processing user data\n" ++
  "[2024-01-15 10:05:01] ERROR: Failed to process user data\n" ++
  "Traceback (most recent call last):\n" ++
  "  File \"/app/user_processor.py\", line 25, in process_user\n" ++
  "    result = validate_email(user.email)\n" ++
  "  File \"/app/validators.py\", line 15, in validate_email\n" ++
  "    return regex.match(pattern, email)\n" ++
  "AttributeError: 'NoneType' object has no attribute 'match'\n" ++
  "[2024-01-15 10:05:02] INFO: Skipping invalid user record\n" ++
  "[2024-01-15 10:05:03] INFO: Processing complete"

/-- The `config_logs` literal from `generate_sample_logs`. -/
def config_logs : String :=
  "=== DATABASE CONFIG ===\n" ++
  "host: localhost\n" ++
  "port: 5432\n" ++
  "database: myapp\n" ++
  "username: app_user\n" ++
  "connection_pool: 10\n" ++
  "---\n" ++
  "=== REDIS CONFIG ===\n" ++
  "host: redis.internal\n" ++
  "port: 6379\n" ++
  "database: 0\n" ++
  "password: secret123\n" ++
  "---\n" ++
  "=== API CONFIG ===\n" ++
  "base_url: https://api.example.com\n" ++
  "timeout: 30\n" ++
  "retries: 3"

/-- `generate_sample_logs`: the wall-clock read `now = datetime.datetime.now()`
is modelled as the parameter `now`; the source binds it and never uses it, so
the binding is kept but unused, and the three literal blocks are returned. -/
def generate_sample_logs (now : Nat) : String × String × String :=
  let _now := now
  (java_logs, python_logs, config_logs)

/-- Section header printed before the java block. -/
def header_java : String := "=== Java Application Logs ==="

/-- Section header printed before the python block. -/
def header_python : String := "=== Python Application Logs ==="

/-- Section header printed before the config block. -/
def header_config : String := "=== Configuration Sections ==="

/-- Model of Python `print`: append the argument and a newline to the output
accumulated on standard output so far. -/
def printLine (out s : String) : String := out ++ s ++ "\n"

/-- The `__main__` block: call `generate_sample_logs`, then issue the six
`print` calls in source order (the second and third headers carry a leading
`"\n"`, producing the blank separator lines). -/
def mainOutputAt (t : Nat) : String :=
  let r := generate_sample_logs t
  let out := printLine "" header_java
  let out := printLine out r.1
  let out := printLine out ("\n" ++ header_python)
  let out := printLine out r.2.1
  let out := printLine out ("\n" ++ header_config)
  let out := printLine out r.2.2
  out

/-- Result of one run of the script: the bytes written to standard output and
the process exit status.  The script raises no exception and calls no
`sys.exit`, so a run completes normally with status 0. -/
structure RunResult where
  stdout : String
  exitCode : Nat
  deriving Repr, DecidableEq

/-- One full run of the script at clock value `t`. -/
def runMain (t : Nat) : RunResult :=
  { stdout := mainOutputAt t, exitCode := 0 }

/-- The standard output of a run (constant in the clock; proved below). -/
def mainOutput : String := mainOutputAt 0

/-- `leadsWith p s` holds when the character list `p` is an initial segment
of `s`. -/
def leadsWith : List Char → List Char → Bool
  | [], _ => true
  | _ :: _, [] => false
  | p :: ps, c :: cs => p == c && leadsWith ps cs

/-- `trailsWith p s` holds when `p` is a final segment of `s`. -/
def trailsWith (p s : List Char) : Bool := leadsWith p.reverse s.reverse

/-- `hasSub sub s` holds when `sub` occurs contiguously inside `s`. -/
def hasSub (sub : List Char) : List Char → Bool
  | [] => sub.isEmpty
  | c :: cs => leadsWith sub (c :: cs) || hasSub sub cs

/-- Split a character list on newline characters; a trailing newline yields a
final empty line, matching how text ending in `"\n"` is viewed line by line. -/
def splitNl : List Char → List (List Char)
  | [] => [[]]
  | c :: cs =>
    if c == '\n' then [] :: splitNl cs
    else
      match splitNl cs with
      | [] => [[c]]
      | l :: ls => (c :: l) :: ls

/-- The lines of the full standard output of a run. -/
def outLines : List (List Char) := splitNl mainOutput.data

/-- The lines of the `java_logs` block. -/
def javaLines : List (List Char) := splitNl java_logs.data

/-- The lines of the `python_logs` block. -/
def pythonLines : List (List Char) := splitNl python_logs.data

/-- The lines of the `config_logs` block. -/
def configLines : List (List Char) := splitNl config_logs.data

/-- Leading-space indentation depth of a line. -/
def indentOf (l : List Char) : Nat := (l.takeWhile (fun c => c == ' ')).length

/-- An elision line: optional leading spaces, then exactly
`"... <digits> more"` with a nonempty digit run. -/
def isElision (l : List Char) : Bool :=
  let t := l.dropWhile (fun c => c == ' ')
  leadsWith "... ".data t &&
    (let rest := t.drop 4
     let ds := rest.takeWhile Char.isDigit
     !ds.isEmpty && rest.drop ds.length == " more".data)

/-- A traceback frame header line:
`"  File \"<path>\", line <n>, in <function>"` with nonempty path, digit run
and function name. -/
def isFrameFileLine (l : List Char) : Bool :=
  if leadsWith "  File \"".data l then
    let rest := l.drop 8
    let path := rest.takeWhile (fun c => c != '"')
    let rest2 := rest.drop path.length
    if leadsWith "\", line ".data rest2 then
      let rest3 := rest2.drop 8
      let ds := rest3.takeWhile Char.isDigit
      let rest4 := rest3.drop ds.length
      !path.isEmpty && !ds.isEmpty && leadsWith ", in ".data rest4 &&
        !(rest4.drop 5).isEmpty
    else false
  else false

/-- Count adjacent frame pairs: a frame header line immediately followed by a
line indented strictly deeper. -/
def countFramePairs : List (List Char) → Nat
  | a :: b :: rest =>
    (if isFrameFileLine a && indentOf a < indentOf b then 1 else 0) +
      countFramePairs (b :: rest)
  | _ => 0

/-- A config banner line `"=== <NAME> CONFIG ==="` with nonempty `<NAME>`. -/
def isBanner (l : List Char) : Bool :=
  leadsWith "=== ".data l && trailsWith " CONFIG ===".data l && 15 < l.length

/-- A `key: value` line: nonempty key of letters and underscores, then
`": "`, then a nonempty value. -/
def isKeyValueLine (l : List Char) : Bool :=
  let key := l.takeWhile (fun c => c != ':')
  !key.isEmpty && key.all (fun c => c.isAlpha || c == '_') &&
    leadsWith ": ".data (l.drop key.length) && !(l.drop (key.length + 2)).isEmpty

/-- Every standalone `"---"` line is immediately followed by a banner line. -/
def delimFollowedByBanner : List (List Char) → Bool
  | a :: b :: rest =>
    (!(a == "---".data) || isBanner b) && delimFollowedByBanner (b :: rest)
  | [a] => !(a == "---".data)
  | [] => true

/-- Index of the first line satisfying a predicate. -/
def firstIdx (p : List Char → Bool) : List (List Char) → Option Nat
  | [] => none
  | l :: ls => if p l then some 0 else (firstIdx p ls).map (· + 1)

/-- A line shaped like a section delimiter: starts with `"=== "` and ends
with `" ==="`, with a nonempty middle. -/
def isHeaderShape (l : List Char) : Bool :=
  leadsWith "=== ".data l && trailsWith " ===".data l && 8 < l.length

/-- Claim C1: determinism and clock noninterference — any two invocations of
`generate_sample_logs` return the same three strings, and the captured clock
value does not influence the returned strings or the printed output. -/
theorem generate_samples_deterministic :
    ∀ t₁ t₂ : Nat, generate_sample_logs t₁ = generate_sample_logs t₂ ∧
      mainOutputAt t₁ = mainOutputAt t₂ :=
  fun _ _ => ⟨rfl, rfl⟩

/-- Claim C2: the full standard output is the java header, the java block,
a blank line, the python header, the python block, a blank line, the config
header and the config block, in exactly that order (a final empty line comes
from the trailing newline of the last `print`). -/
theorem main_output_sections :
    outLines =
      [header_java.data] ++ javaLines ++ [[]] ++
      [header_python.data] ++ pythonLines ++ [[]] ++
      [header_config.data] ++ configLines ++ [[]] := by decide

/-- Claim C3: the java block has exactly one line containing `"Caused by:"`
and exactly one elision line matching `"... <digits> more"`. -/
theorem java_causedby_and_elision :
    List.countP (fun l => hasSub "Caused by:".data l) javaLines = 1 ∧
    List.countP isElision javaLines = 1 := by decide

/-- Claim C4: the python block has exactly one
`"Traceback (most recent call last):"` line and at least two frame pairs
(a `File` header line immediately followed by a more-indented source line). -/
theorem python_traceback_and_frames :
    List.countP (fun l => l == "Traceback (most recent call last):".data)
      pythonLines = 1 ∧
    2 ≤ countFramePairs pythonLines := by decide

/-- Claim C5: the config block has exactly three `"=== <NAME> CONFIG ==="`
banner lines and exactly two standalone `"---"` delimiter lines, each
delimiter immediately preceding a banner (so delimiters separate the sections
after the first, whose banner opens the block). -/
theorem config_banners_and_delims :
    List.countP isBanner configLines = 3 ∧
    List.countP (fun l => l == "---".data) configLines = 2 ∧
    delimFollowedByBanner configLines = true ∧
    configLines.head?.map isBanner = some true := by decide

/-- Claim C6: the first line of standard output is the java header, and the
substring `"java.lang.RuntimeException: Database connection failed"` first
occurs on line 3, before every line containing `"Retrying user registration"`. -/
theorem stdout_java_order :
    outLines.head? = some header_java.data ∧
    firstIdx
      (fun l =>
        hasSub "java.lang.RuntimeException: Database connection failed".data l)
      outLines = some 3 ∧
    ∀ j, j < outLines.length →
      hasSub "Retrying user registration".data (outLines.getD j []) = true →
        3 < j := by decide

/-- Witness for C6: line 10 of standard output contains the retry message,
and the theorem places it after line 3. -/
theorem stdout_java_order_witness :
    hasSub "Retrying user registration".data (outLines.getD 10 []) = true ∧
      3 < 10 :=
  ⟨by decide, stdout_java_order.2.2 10 (by decide) (by decide)⟩

/-- Claim C7: standard output contains, in order, the `DATABASE CONFIG`,
`REDIS CONFIG` and `API CONFIG` banners, each immediately followed by a
`key: value` line. -/
theorem config_section_order :
    ∃ i j k : Nat, i < j ∧ j < k ∧
      outLines.getD i [] = "=== DATABASE CONFIG ===".data ∧
      outLines.getD j [] = "=== REDIS CONFIG ===".data ∧
      outLines.getD k [] = "=== API CONFIG ===".data ∧
      isKeyValueLine (outLines.getD (i + 1) []) = true ∧
      isKeyValueLine (outLines.getD (j + 1) []) = true ∧
      isKeyValueLine (outLines.getD (k + 1) []) = true :=
  ⟨26, 33, 39, by decide⟩

/-- Claim C8: the generator is a total function with no error result, and
every run of the script exits with status 0 and the fixed output. -/
theorem run_always_succeeds :
    ∀ t : Nat, (runMain t).exitCode = 0 ∧ (runMain t).stdout = mainOutput :=
  fun _ => ⟨rfl, rfl⟩

/-- Claim C9: none of the three blocks begins or ends with a newline: each
block's first character is the first character of its first line and its last
character is the last character of its last line. -/
theorem blocks_no_edge_newlines :
    (java_logs.data.head? ≠ some '\n' ∧ java_logs.data.getLast? ≠ some '\n' ∧
      java_logs.data.head? = (javaLines.headD []).head? ∧
      java_logs.data.getLast? = (javaLines.getLastD []).getLast?) ∧
    (python_logs.data.head? ≠ some '\n' ∧
      python_logs.data.getLast? ≠ some '\n' ∧
      python_logs.data.head? = (pythonLines.headD []).head? ∧
      python_logs.data.getLast? = (pythonLines.getLastD []).getLast?) ∧
    (config_logs.data.head? ≠ some '\n' ∧
      config_logs.data.getLast? ≠ some '\n' ∧
      config_logs.data.head? = (configLines.headD []).head? ∧
      config_logs.data.getLast? = (configLines.getLastD []).getLast?) := by
  decide

/-- Claim C10: exactly six lines of the full standard output start with
`"=== "` and end with `" ==="` — the three entry-point headers plus the three
config banners (which account for the three such lines inside the config
block), so the two delimiter shapes coincide for a consumer keying on that
pattern. -/
theorem header_shape_lines :
    List.countP isHeaderShape outLines = 6 ∧
    List.countP isHeaderShape configLines = 3 ∧
    isHeaderShape header_java.data = true ∧
    isHeaderShape header_python.data = true ∧
    isHeaderShape header_config.data = true := by decide
